import Mathlib

/-!
Verification of the `azan` prayer-time library (Rust) against its
natural-language specification, via a shallow embedding in Lean 4.

Modelling conventions:
* Absolute instants (`chrono::DateTime<Utc>`) are integers counting seconds;
  durations are integers of seconds (`Duration::num_seconds`).
* Calendar dates are integers counting days; `Stride::tomorrow` is `d + 1`.
* Rust `f64` values that carry exact fractions (night portions, the 1/2 and
  2/3 factors in the Qiyam computation) are modelled as rationals, with the
  Rust `as i64` cast modelled as truncation toward zero (`truncQ`).
* The solar-position calculator (`SolarTime::new`, `time_for_solar_angle`,
  `afternoon`) and the seasonal twilight corrections
  (`ops::season_adjusted_morning_twilight` / `..._evening_twilight`) live in
  the repository's `astronomy` module, which is not part of the sources under
  verification; they are transcendental-function computations.  The schedule
  assembler is therefore parametrised over an abstract `Astro` record
  supplying those functions, and every theorem quantifies over it.  The
  `day_of_year`/`year` arguments the code passes to the twilight corrections
  are functions of the date, so the abstract corrections take the date
  directly; this loses no generality.
-/

namespace Azan

/-- Names of the eight schedule positions (`src/models/prayer.rs`). -/
inductive Prayer where
  | fajr
  | sunrise
  | dhuhr
  | asr
  | maghrib
  | ishaa
  | qiyam
  | fajrTomorrow
deriving DecidableEq, Repr

/-- Rounding policy (`src/models/rounding.rs`): `Nearest`, `Ceil`, `None`. -/
inductive Rounding where
  | nearest
  | ceil
  | none
deriving DecidableEq, Repr

/-- Twilight (Shafaq) variant (`src/models/twilight.rs`). -/
inductive Twilight where
  | general
  | red
  | white
deriving DecidableEq, Repr

/-- Jurisprudential school affecting the Asr shadow factor
(`azan_core/src/models/mazhab.rs`). -/
inductive Mazhab where
  | shafi
  | hanafi
deriving DecidableEq, Repr

/-- `Mazhab::shadow`: 1 for Shafi, 2 for Hanafi. -/
def Mazhab.shadow : Mazhab → ℤ
  | .shafi => 1
  | .hanafi => 2

/-- High-latitude rule.  The defining file is referenced from
`src/models/parameters.rs` (`high_altitude_rule.rs`) but is not among the
sources; the three variants are fixed by their uses there and by spec §4.2. -/
inductive HighLatitudeRule where
  | middleOfTheNight
  | seventhOfTheNight
  | twilightAngle
deriving DecidableEq, Repr

/-- Dusk specification (`azan_core/src/models/ishaa_parameter.rs`): either a
solar depression angle or a fixed post-sunset interval in minutes. -/
inductive IshaaParameter where
  | angle (a : ℚ)
  | interval (minutes : ℤ)
deriving DecidableEq, Repr

/-- Per-prayer minute adjustments (`azan_core/src/models/adjustments.rs`). -/
structure TimeAdjustment where
  fajr : ℤ
  sunrise : ℤ
  dhuhr : ℤ
  asr : ℤ
  maghrib : ℤ
  ishaa : ℤ
deriving DecidableEq, Repr

/-- The all-zero adjustment record (`TimeAdjustment::default`). -/
def TimeAdjustment.zero : TimeAdjustment := ⟨0, 0, 0, 0, 0, 0⟩

/-- Validated latitude/longitude pair (`astronomy/unit.rs`). -/
structure Coordinates where
  latitude : ℚ
  longitude : ℚ
deriving DecidableEq, Repr

/-- Configuration bundle (`src/models/parameters.rs`).  The fields are those
consumed by `src/schedule.rs`: the dusk specification is the
`IshaaParameter` sum type (the sibling `parameters.rs` under `src/` keeps
separate `ishaa_angle`/`ishaa_interval` fields, with the angle forced to `0`
whenever an interval is configured; `IshaaParameter.angleValue` reconciles
the two representations), and the moonsighting-committee method flag is the
boolean `is_moonsighting_committee` tested by the schedule code. -/
structure Parameters where
  fajrAngle : ℚ
  maghribAngle : ℚ
  ishaaParameter : IshaaParameter
  madhab : Mazhab
  highLatitudeRule : HighLatitudeRule
  adjustments : TimeAdjustment
  methodAdjustments : TimeAdjustment
  rounding : Rounding
  twilight : Twilight
  isMoonsightingCommittee : Bool
deriving DecidableEq, Repr

/-- The dusk depression angle carried by a dusk specification: the angle
itself when dusk is angle-based, and `0` when dusk is interval-based
(`Configuration::ishaa_interval` zeroes the stored angle). -/
def IshaaParameter.angleValue : IshaaParameter → ℚ
  | .angle a => a
  | .interval _ => 0

/-- `Parameters::night_portions` (`src/models/parameters.rs`). -/
def Parameters.nightPortions (p : Parameters) : ℚ × ℚ :=
  match p.highLatitudeRule with
  | .middleOfTheNight => (1 / 2, 1 / 2)
  | .seventhOfTheNight => (1 / 7, 1 / 7)
  | .twilightAngle => (p.fajrAngle / 60, p.ishaaParameter.angleValue / 60)

/-- `Parameters::time_adjustments` (`src/models/parameters.rs`): user-level
plus method-level minute adjustment per prayer; `0` for the catch-all arm
(`Qiyam`, `FajrTomorrow`). -/
def Parameters.timeAdjustments (p : Parameters) : Prayer → ℤ
  | .fajr => p.adjustments.fajr + p.methodAdjustments.fajr
  | .sunrise => p.adjustments.sunrise + p.methodAdjustments.sunrise
  | .dhuhr => p.adjustments.dhuhr + p.methodAdjustments.dhuhr
  | .asr => p.adjustments.asr + p.methodAdjustments.asr
  | .maghrib => p.adjustments.maghrib + p.methodAdjustments.maghrib
  | .ishaa => p.adjustments.ishaa + p.methodAdjustments.ishaa
  | .qiyam => 0
  | .fajrTomorrow => 0

/-- Truncation toward zero, modelling the Rust `as i64` cast on `f64`. -/
def truncQ (q : ℚ) : ℤ := if 0 ≤ q then ⌊q⌋ else ⌈q⌉

/-- Modelled from the spec: `ops::adjust_time` (the `astronomy` module is not
among the sources); adds a whole number of minutes to an instant (§4.5
step 8). -/
def adjustTime (t : ℤ) (minutes : ℤ) : ℤ := t + minutes * 60

/-- Modelled from the spec: `ops::rounded_minute` (§4.4); snaps an instant to
the nearest minute (half a minute or more of seconds rounds up), to the next
minute, or leaves it unchanged. -/
def roundedMinute (r : Rounding) (t : ℤ) : ℤ :=
  match r with
  | .nearest => if 30 ≤ t % 60 then t - t % 60 + 60 else t - t % 60
  | .ceil => if t % 60 = 0 then t else t - t % 60 + 60
  | .none => t

/-- Abstract result of the solar-position calculator for one date and
coordinate (spec §4.1, `astronomy/solar.rs`, not among the sources):
transit/sunrise/sunset instants, the instant at which the sun reaches a given
solar angle before or after transit, and the Asr instant for a given shadow
factor. -/
structure SolarTime where
  transit : ℤ
  sunrise : ℤ
  sunset : ℤ
  timeForSolarAngle : ℚ → Bool → ℤ
  afternoon : ℤ → ℤ

/-- Abstract astronomy layer: the solar-position calculator indexed by date
and coordinate, and the moonsighting-committee seasonal twilight corrections
(spec §4.1, §4.3; the concrete implementations are not among the sources). -/
structure Astro where
  solarTimeOf : ℤ → Coordinates → SolarTime
  morningTwilight : ℚ → ℤ → ℤ → ℤ
  eveningTwilight : ℚ → ℤ → ℤ → Twilight → ℤ

/-- The raw (pre-safety-bound) Fajr estimate of
`PrayerTimes::calculate_fajr`: the dawn-depression crossing, overridden by
`sunrise - night / 7` when the moonsighting-committee flag is set and the
latitude is at least 55 (the code compares `coordinates.latitude >= 55.0`,
with no absolute value).  `night / 7` is `i64` division, truncating toward
zero. -/
def rawFajr (p : Parameters) (st : SolarTime) (night : ℤ) (c : Coordinates) : ℤ :=
  if p.isMoonsightingCommittee = true ∧ 55 ≤ c.latitude then
    st.sunrise - Int.tdiv night 7
  else
    st.timeForSolarAngle (-p.fajrAngle) false

/-- The Fajr safety bound of `PrayerTimes::calculate_fajr`: the seasonal
morning-twilight correction when the moonsighting-committee flag is set,
otherwise sunrise minus the morning night-portion fraction of the night. -/
def safeFajr (astro : Astro) (p : Parameters) (st : SolarTime) (night : ℤ) (c : Coordinates)
    (d : ℤ) : ℤ :=
  if p.isMoonsightingCommittee = true then
    astro.morningTwilight c.latitude d st.sunrise
  else
    st.sunrise - truncQ (p.nightPortions.1 * (night : ℚ))

/-- `PrayerTimes::calculate_fajr` (`src/schedule.rs`): the later of the raw
estimate and the safety bound, then the per-prayer minute adjustment. -/
def calculateFajr (astro : Astro) (p : Parameters) (st : SolarTime) (night : ℤ)
    (c : Coordinates) (d : ℤ) : ℤ :=
  let fajr := rawFajr p st night c
  let safe := safeFajr astro p st night c d
  adjustTime (if fajr < safe then safe else fajr) (p.timeAdjustments .fajr)

/-- The raw (pre-safety-bound) angle-based Ishaa estimate of
`PrayerTimes::calculate_isha`: the dusk-depression crossing, overridden by
`sunset + night / 7` when the moonsighting-committee flag is set and the
latitude is at least 55. -/
def rawIshaaAngle (p : Parameters) (st : SolarTime) (night : ℤ) (c : Coordinates)
    (a : ℚ) : ℤ :=
  if p.isMoonsightingCommittee = true ∧ 55 ≤ c.latitude then
    st.sunset + Int.tdiv night 7
  else
    st.timeForSolarAngle (-a) true

/-- The Ishaa safety bound of `PrayerTimes::calculate_isha`: the seasonal
evening-twilight correction when the moonsighting-committee flag is set,
otherwise sunset plus the evening night-portion fraction of the night. -/
def safeIshaa (astro : Astro) (p : Parameters) (st : SolarTime) (night : ℤ) (c : Coordinates)
    (d : ℤ) : ℤ :=
  if p.isMoonsightingCommittee = true then
    astro.eveningTwilight c.latitude d st.sunset p.twilight
  else
    st.sunset + truncQ (p.nightPortions.2 * (night : ℚ))

/-- `PrayerTimes::calculate_isha` (`src/schedule.rs`): sunset plus the fixed
interval when dusk is interval-based; otherwise the earlier of the raw
angle-based estimate and the safety bound; then the per-prayer minute
adjustment. -/
def calculateIsha (astro : Astro) (p : Parameters) (st : SolarTime) (night : ℤ)
    (c : Coordinates) (d : ℤ) : ℤ :=
  let ishaa :=
    match p.ishaaParameter with
    | .interval i => st.sunset + i * 60
    | .angle a =>
        let base := rawIshaaAngle p st night c a
        let safe := safeIshaa astro p st night c d
        if base > safe then safe else base
  adjustTime ishaa (p.timeAdjustments .ishaa)

/-- `PrayerTimes::calculate_qiyam` (`src/schedule.rs`): recomputes tomorrow's
(unrounded) Fajr, takes the night duration from today's final Maghrib to it,
and returns middle-of-night, last-third-of-night (both rounded to the nearest
minute with `Rounding::Nearest`, regardless of the configured policy), and
tomorrow's Fajr. -/
def calculateQiyam (astro : Astro) (currentMaghrib : ℤ) (p : Parameters) (st : SolarTime)
    (c : Coordinates) (d : ℤ) : ℤ × ℤ × ℤ :=
  let tomorrow := d + 1
  let stTomorrow := astro.solarTimeOf tomorrow c
  let night := stTomorrow.sunrise - st.sunset
  let tomorrowFajr := calculateFajr astro p st night c d
  let nightDuration : ℚ := ((tomorrowFajr - currentMaghrib : ℤ) : ℚ)
  let middleNightPortion := truncQ (nightDuration / 2)
  let lastThirdPortion := truncQ (nightDuration * (2 / 3))
  (roundedMinute .nearest (currentMaghrib + middleNightPortion),
   roundedMinute .nearest (currentMaghrib + lastThirdPortion),
   tomorrowFajr)

/-- The assembled schedule (`PrayerTimes` in `src/schedule.rs`). -/
structure PrayerTimes where
  fajr : ℤ
  sunrise : ℤ
  dhuhr : ℤ
  asr : ℤ
  maghrib : ℤ
  ishaa : ℤ
  middleOfTheNight : ℤ
  qiyam : ℤ
  fajrTomorrow : ℤ
  coordinates : Coordinates
  date : ℤ
  parameters : Parameters

/-- `PrayerTimes::new` (`src/schedule.rs`): computes today's and tomorrow's
solar positions, night length as tomorrow's sunrise minus today's sunset,
each prayer instant via the calculators with adjustment and rounding, and the
Qiyam triple from today's final Maghrib. -/
def PrayerTimes.new (astro : Astro) (date : ℤ) (coordinates : Coordinates)
    (parameters : Parameters) : PrayerTimes :=
  let tomorrow := date + 1
  let solarTime := astro.solarTimeOf date coordinates
  let solarTimeTomorrow := astro.solarTimeOf tomorrow coordinates
  let asr := solarTime.afternoon parameters.madhab.shadow
  let night := solarTimeTomorrow.sunrise - solarTime.sunset
  let finalFajr :=
    roundedMinute parameters.rounding
      (calculateFajr astro parameters solarTime night coordinates date)
  let finalSunrise :=
    roundedMinute parameters.rounding
      (adjustTime solarTime.sunrise (parameters.timeAdjustments .sunrise))
  let finalDhuhr :=
    roundedMinute parameters.rounding
      (adjustTime solarTime.transit (parameters.timeAdjustments .dhuhr))
  let finalAsr :=
    roundedMinute parameters.rounding (adjustTime asr (parameters.timeAdjustments .asr))
  let finalMaghrib :=
    roundedMinute parameters.rounding
      (adjustTime solarTime.sunset (parameters.timeAdjustments .maghrib))
  let finalIsha :=
    roundedMinute parameters.rounding
      (calculateIsha astro parameters solarTime night coordinates date)
  let q := calculateQiyam astro finalMaghrib parameters solarTimeTomorrow coordinates tomorrow
  { fajr := finalFajr
    sunrise := finalSunrise
    dhuhr := finalDhuhr
    asr := finalAsr
    maghrib := finalMaghrib
    ishaa := finalIsha
    middleOfTheNight := q.1
    qiyam := q.2.1
    fajrTomorrow := q.2.2
    coordinates := coordinates
    date := date
    parameters := parameters }

/-- `PrayerTimes::time`. -/
def PrayerTimes.time (pt : PrayerTimes) : Prayer → ℤ
  | .fajr => pt.fajr
  | .sunrise => pt.sunrise
  | .dhuhr => pt.dhuhr
  | .asr => pt.asr
  | .maghrib => pt.maghrib
  | .ishaa => pt.ishaa
  | .qiyam => pt.qiyam
  | .fajrTomorrow => pt.fajrTomorrow

/-- `PrayerTimes::current_time` (`src/schedule.rs`): scan
FajrTomorrow, Qiyam, Ishaa, Maghrib, Asr, Dhuhr, Sunrise, Fajr and return the
first whose instant is at most the probe (`signed_duration_since(time)
.num_seconds() <= 0` on whole-second instants), else `None`. -/
def PrayerTimes.currentTime (pt : PrayerTimes) (time : ℤ) : Option Prayer :=
  if pt.fajrTomorrow - time ≤ 0 then some .fajrTomorrow
  else if pt.qiyam - time ≤ 0 then some .qiyam
  else if pt.ishaa - time ≤ 0 then some .ishaa
  else if pt.maghrib - time ≤ 0 then some .maghrib
  else if pt.asr - time ≤ 0 then some .asr
  else if pt.dhuhr - time ≤ 0 then some .dhuhr
  else if pt.sunrise - time ≤ 0 then some .sunrise
  else if pt.fajr - time ≤ 0 then some .fajr
  else none

/-- `PrayerTimes::current`: `current_time(Utc::now()).expect("Out of
bounds")`.  The ambient clock is made an explicit argument and the panic is
modelled as the error outcome carrying the panic message. -/
def PrayerTimes.current (pt : PrayerTimes) (now : ℤ) : Except String Prayer :=
  match pt.currentTime now with
  | some p => .ok p
  | Option.none => .error "Out of bounds"

/-- The successor table inside `PrayerTimes::next` (the catch-all arm maps
`FajrTomorrow` to itself). -/
def Prayer.successor : Prayer → Prayer
  | .fajr => .sunrise
  | .sunrise => .dhuhr
  | .dhuhr => .asr
  | .asr => .maghrib
  | .maghrib => .ishaa
  | .ishaa => .qiyam
  | .qiyam => .fajrTomorrow
  | .fajrTomorrow => .fajrTomorrow

/-- `PrayerTimes::next`: calls `current` (so a panic there propagates) and
maps the result through the successor table. -/
def PrayerTimes.next (pt : PrayerTimes) (now : ℤ) : Except String Prayer :=
  match pt.current now with
  | .ok p => .ok p.successor
  | .error e => .error e

/-- The builder (`PrayerSchedule` in `src/schedule.rs`). -/
structure PrayerSchedule where
  date : Option ℤ
  coordinates : Option Coordinates
  params : Option Parameters

/-- `PrayerSchedule::calculate`: a complete schedule when date, coordinates
and parameters have all been supplied, otherwise the descriptive error. -/
def PrayerSchedule.calculate (s : PrayerSchedule) (astro : Astro) :
    Except String PrayerTimes :=
  match s.date, s.coordinates, s.params with
  | some d, some c, some p => .ok (PrayerTimes.new astro d c p)
  | _, _, _ =>
      .error "Required information is needed in order to calculate the prayer times."

/-- The scan order of `PrayerTimes::current_time`. -/
def scanOrder : List Prayer :=
  [.fajrTomorrow, .qiyam, .ishaa, .maghrib, .asr, .dhuhr, .sunrise, .fajr]

/-- The ordering invariant of spec §3/§8: the eight instants strictly
increase in canonical order. -/
def isOrdered (pt : PrayerTimes) : Prop :=
  pt.fajr < pt.sunrise ∧ pt.sunrise < pt.dhuhr ∧ pt.dhuhr < pt.asr ∧
    pt.asr < pt.maghrib ∧ pt.maghrib < pt.ishaa ∧ pt.ishaa < pt.qiyam ∧
    pt.qiyam < pt.fajrTomorrow

instance (pt : PrayerTimes) : Decidable (isOrdered pt) := by
  unfold isOrdered
  infer_instance

end Azan

namespace Azan

/-- Toy solar data for concrete instantiations: one civil day is 86400
seconds; sunrise, transit, afternoon, sunset and the depression crossings sit
at fixed offsets within day `d`. -/
def toySolar (d : ℤ) : SolarTime where
  transit := 86400 * d + 43200
  sunrise := 86400 * d + 21600
  sunset := 86400 * d + 64800
  timeForSolarAngle := fun _ after => if after then 86400 * d + 70000 else 86400 * d + 18000
  afternoon := fun _ => 86400 * d + 50000

/-- Toy astronomy layer: latitude-independent toy solar data, with seasonal
twilight corrections a fixed offset inside the day/night. -/
def toyAstro : Astro where
  solarTimeOf := fun d _ => toySolar d
  morningTwilight := fun _ _ sunrise => sunrise - 4000
  eveningTwilight := fun _ _ sunset _ => sunset + 4000

/-- A northern high-latitude coordinate (latitude 60). -/
def northCoords : Coordinates := ⟨60, 10⟩

/-- A southern high-latitude coordinate (latitude -60, so |latitude| ≥ 55). -/
def southCoords : Coordinates := ⟨-60, 10⟩

/-- Moonsighting-committee parameters with zero adjustments and no
rounding. -/
def paramsMoonPlain : Parameters where
  fajrAngle := 18
  maghribAngle := 0
  ishaaParameter := .angle 18
  madhab := .shafi
  highLatitudeRule := .middleOfTheNight
  adjustments := TimeAdjustment.zero
  methodAdjustments := TimeAdjustment.zero
  rounding := .none
  twilight := .general
  isMoonsightingCommittee := true

/-- Moonsighting-committee parameters with a +600-minute user-level Fajr
adjustment (all fields of `TimeAdjustment` are plain public integers, so this
is a constructible configuration). -/
def paramsBigFajrAdjustment : Parameters :=
  { paramsMoonPlain with adjustments := { TimeAdjustment.zero with fajr := 600 } }

/-- Moonsighting-committee parameters with nearest-minute rounding. -/
def paramsMoonNearest : Parameters :=
  { paramsMoonPlain with rounding := .nearest }

/-- Parameters like `paramsMoonPlain` but with the seventh-of-the-night
high-latitude rule. -/
def paramsSeventh : Parameters :=
  { paramsMoonPlain with highLatitudeRule := .seventhOfTheNight }

/-- Parameters with the twilight-angle high-latitude rule and an
interval-based dusk specification. -/
def paramsTwilightInterval : Parameters :=
  { paramsMoonPlain with
      highLatitudeRule := .twilightAngle
      ishaaParameter := .interval 90 }

/-- A directly constructed schedule with strictly increasing instants, used
for concrete lookup instantiations. -/
def toyTimes : PrayerTimes where
  fajr := 100
  sunrise := 200
  dhuhr := 300
  asr := 400
  maghrib := 500
  ishaa := 600
  middleOfTheNight := 650
  qiyam := 700
  fajrTomorrow := 800
  coordinates := northCoords
  date := 0
  parameters := paramsMoonPlain

/-- The Fajr value selected by `calculate_fajr` before the per-prayer
adjustment: the raw estimate, replaced by the safety bound when it is
earlier. -/
def preFajr (astro : Astro) (p : Parameters) (st : SolarTime) (night : ℤ) (c : Coordinates)
    (d : ℤ) : ℤ :=
  let fajr := rawFajr p st night c
  let safe := safeFajr astro p st night c d
  if fajr < safe then safe else fajr

/-- The Ishaa value selected by `calculate_isha` before the per-prayer
adjustment: sunset plus the interval, or the raw angle-based estimate
replaced by the safety bound when it is later. -/
def preIshaa (astro : Astro) (p : Parameters) (st : SolarTime) (night : ℤ) (c : Coordinates)
    (d : ℤ) : ℤ :=
  match p.ishaaParameter with
  | .interval i => st.sunset + i * 60
  | .angle a =>
      let base := rawIshaaAngle p st night c a
      let safe := safeIshaa astro p st night c d
      if base > safe then safe else base

theorem calculateFajr_eq (astro : Astro) (p : Parameters) (st : SolarTime) (night : ℤ)
    (c : Coordinates) (d : ℤ) :
    calculateFajr astro p st night c d =
      adjustTime (preFajr astro p st night c d) (p.timeAdjustments .fajr) := rfl

theorem calculateIsha_eq (astro : Astro) (p : Parameters) (st : SolarTime) (night : ℤ)
    (c : Coordinates) (d : ℤ) :
    calculateIsha astro p st night c d =
      adjustTime (preIshaa astro p st night c d) (p.timeAdjustments .ishaa) := rfl

theorem preFajr_eq_max (astro : Astro) (p : Parameters) (st : SolarTime) (night : ℤ)
    (c : Coordinates) (d : ℤ) :
    preFajr astro p st night c d =
      max (rawFajr p st night c) (safeFajr astro p st night c d) := by
  show (if rawFajr p st night c < safeFajr astro p st night c d then
      safeFajr astro p st night c d
    else rawFajr p st night c) = _
  omega

theorem preIshaa_angle_eq_min (astro : Astro) (p : Parameters) (st : SolarTime) (night : ℤ)
    (c : Coordinates) (d : ℤ) (a : ℚ) (ha : p.ishaaParameter = .angle a) :
    preIshaa astro p st night c d =
      min (rawIshaaAngle p st night c a) (safeIshaa astro p st night c d) := by
  unfold preIshaa
  rw [ha]
  show (if rawIshaaAngle p st night c a > safeIshaa astro p st night c d then
      safeIshaa astro p st night c d
    else rawIshaaAngle p st night c a) = _
  omega

theorem truncQ_intCast (n : ℤ) : truncQ (n : ℚ) = n := by
  unfold truncQ
  split <;> simp

theorem truncQ_le (q : ℚ) (h : 0 ≤ q) : (truncQ q : ℚ) ≤ q := by
  rw [truncQ, if_pos h]
  exact Int.floor_le q

theorem lt_truncQ (q : ℚ) (h : 0 ≤ q) : q - 1 < (truncQ q : ℚ) := by
  rw [truncQ, if_pos h]
  linarith [Int.lt_floor_add_one q]

theorem roundedMinute_nearest_bounds (t : ℤ) :
    t - 29 ≤ roundedMinute .nearest t ∧ roundedMinute .nearest t ≤ t + 30 := by
  show t - 29 ≤ (if 30 ≤ t % 60 then t - t % 60 + 60 else t - t % 60) ∧
    (if 30 ≤ t % 60 then t - t % 60 + 60 else t - t % 60) ≤ t + 30
  constructor <;> split <;> omega

theorem roundedMinute_nearest_mod (t : ℤ) : roundedMinute .nearest t % 60 = 0 := by
  show (if 30 ≤ t % 60 then t - t % 60 + 60 else t - t % 60) % 60 = 0
  split <;> omega

theorem roundedMinute_ceil_mod (t : ℤ) : roundedMinute .ceil t % 60 = 0 := by
  show (if t % 60 = 0 then t else t - t % 60 + 60) % 60 = 0
  split <;> omega

theorem roundedMinute_none_eq (t : ℤ) : roundedMinute .none t = t := rfl

theorem new_fajr (astro : Astro) (d : ℤ) (c : Coordinates) (p : Parameters) :
    (PrayerTimes.new astro d c p).fajr =
      roundedMinute p.rounding
        (calculateFajr astro p (astro.solarTimeOf d c)
          ((astro.solarTimeOf (d + 1) c).sunrise - (astro.solarTimeOf d c).sunset) c d) := rfl

theorem new_sunrise (astro : Astro) (d : ℤ) (c : Coordinates) (p : Parameters) :
    (PrayerTimes.new astro d c p).sunrise =
      roundedMinute p.rounding
        (adjustTime (astro.solarTimeOf d c).sunrise (p.timeAdjustments .sunrise)) := rfl

theorem new_dhuhr (astro : Astro) (d : ℤ) (c : Coordinates) (p : Parameters) :
    (PrayerTimes.new astro d c p).dhuhr =
      roundedMinute p.rounding
        (adjustTime (astro.solarTimeOf d c).transit (p.timeAdjustments .dhuhr)) := rfl

theorem new_asr (astro : Astro) (d : ℤ) (c : Coordinates) (p : Parameters) :
    (PrayerTimes.new astro d c p).asr =
      roundedMinute p.rounding
        (adjustTime ((astro.solarTimeOf d c).afternoon p.madhab.shadow)
          (p.timeAdjustments .asr)) := rfl

theorem new_maghrib (astro : Astro) (d : ℤ) (c : Coordinates) (p : Parameters) :
    (PrayerTimes.new astro d c p).maghrib =
      roundedMinute p.rounding
        (adjustTime (astro.solarTimeOf d c).sunset (p.timeAdjustments .maghrib)) := rfl

theorem new_ishaa (astro : Astro) (d : ℤ) (c : Coordinates) (p : Parameters) :
    (PrayerTimes.new astro d c p).ishaa =
      roundedMinute p.rounding
        (calculateIsha astro p (astro.solarTimeOf d c)
          ((astro.solarTimeOf (d + 1) c).sunrise - (astro.solarTimeOf d c).sunset) c d) := rfl

theorem new_qiyam_triple (astro : Astro) (d : ℤ) (c : Coordinates) (p : Parameters) :
    ((PrayerTimes.new astro d c p).middleOfTheNight,
     (PrayerTimes.new astro d c p).qiyam,
     (PrayerTimes.new astro d c p).fajrTomorrow) =
      calculateQiyam astro (PrayerTimes.new astro d c p).maghrib p
        (astro.solarTimeOf (d + 1) c) c (d + 1) := rfl

end Azan

namespace Azan

/-- C2: for every configuration and solar data, `calculate_fajr` yields the
later of the raw estimate and the safety bound (hence never earlier than the
bound) followed by the per-prayer adjustment, and whenever dusk is
angle-based `calculate_isha` yields the earlier of the raw estimate and the
safety bound (hence never later than the bound) followed by the per-prayer
adjustment. -/
theorem c2_safety_bound_directionality (astro : Astro) (p : Parameters) (st : SolarTime)
    (night : ℤ) (c : Coordinates) (d : ℤ) :
    calculateFajr astro p st night c d =
      adjustTime (max (rawFajr p st night c) (safeFajr astro p st night c d))
        (p.timeAdjustments .fajr) ∧
    safeFajr astro p st night c d ≤
      max (rawFajr p st night c) (safeFajr astro p st night c d) ∧
    ∀ a, p.ishaaParameter = .angle a →
      calculateIsha astro p st night c d =
        adjustTime (min (rawIshaaAngle p st night c a) (safeIshaa astro p st night c d))
          (p.timeAdjustments .ishaa) ∧
      min (rawIshaaAngle p st night c a) (safeIshaa astro p st night c d) ≤
        safeIshaa astro p st night c d := by
  refine ⟨?_, le_max_right _ _, fun a ha => ⟨?_, min_le_right _ _⟩⟩
  · rw [calculateFajr_eq, preFajr_eq_max]
  · rw [calculateIsha_eq, preIshaa_angle_eq_min astro p st night c d a ha]

/-- Witness for C2 at concrete toy inputs, with the angle-based-dusk
hypothesis discharged. -/
theorem c2_safety_bound_directionality_witness :
    calculateFajr toyAstro paramsMoonPlain (toySolar 0) 43200 northCoords 0 =
      adjustTime
        (max (rawFajr paramsMoonPlain (toySolar 0) 43200 northCoords)
          (safeFajr toyAstro paramsMoonPlain (toySolar 0) 43200 northCoords 0))
        (paramsMoonPlain.timeAdjustments .fajr) ∧
    calculateIsha toyAstro paramsMoonPlain (toySolar 0) 43200 northCoords 0 =
      adjustTime
        (min (rawIshaaAngle paramsMoonPlain (toySolar 0) 43200 northCoords 18)
          (safeIshaa toyAstro paramsMoonPlain (toySolar 0) 43200 northCoords 0))
        (paramsMoonPlain.timeAdjustments .ishaa) ∧
    min (rawIshaaAngle paramsMoonPlain (toySolar 0) 43200 northCoords 18)
        (safeIshaa toyAstro paramsMoonPlain (toySolar 0) 43200 northCoords 0) ≤
      safeIshaa toyAstro paramsMoonPlain (toySolar 0) 43200 northCoords 0 :=
  ⟨(c2_safety_bound_directionality toyAstro paramsMoonPlain (toySolar 0) 43200 northCoords 0).1,
   ((c2_safety_bound_directionality toyAstro paramsMoonPlain (toySolar 0) 43200 northCoords
       0).2.2 18 rfl).1,
   ((c2_safety_bound_directionality toyAstro paramsMoonPlain (toySolar 0) 43200 northCoords
       0).2.2 18 rfl).2⟩

/-- C3 counterexample: at the southern coordinate with latitude -60 (so
|latitude| ≥ 55) and the moonsighting-committee flag set, the raw Fajr
estimate is NOT sunrise minus a seventh of the night: the code's override
tests `latitude >= 55.0` without an absolute value, so it does not fire in
the southern hemisphere. -/
theorem c3_counterexample :
    paramsMoonPlain.isMoonsightingCommittee = true ∧
    (55 ≤ southCoords.latitude ∨ southCoords.latitude ≤ -55) ∧
    rawFajr paramsMoonPlain (toySolar 0) ((toySolar 1).sunrise - (toySolar 0).sunset)
        southCoords ≠
      (toySolar 0).sunrise - Int.tdiv ((toySolar 1).sunrise - (toySolar 0).sunset) 7 :=
  ⟨rfl, Or.inr (by decide), by decide⟩

/-- C3 amended: for every parameters bundle with the moonsighting-committee
flag enabled and every coordinate whose latitude satisfies latitude ≥ 55°
(northern hemisphere only, not |latitude| ≥ 55°), the pre-safety-bound raw
Fajr estimate equals sunrise minus one seventh of the night length, the raw
angle-based Ishaa estimate equals sunset plus one seventh of the night
length, and the override feeds the max-with-safety-bound step. -/
theorem c3_high_latitude_override (astro : Astro) (p : Parameters) (st : SolarTime)
    (night : ℤ) (c : Coordinates) (d : ℤ)
    (hm : p.isMoonsightingCommittee = true) (hlat : 55 ≤ c.latitude) :
    rawFajr p st night c = st.sunrise - Int.tdiv night 7 ∧
    (∀ a, p.ishaaParameter = .angle a →
      rawIshaaAngle p st night c a = st.sunset + Int.tdiv night 7) ∧
    calculateFajr astro p st night c d =
      adjustTime (max (st.sunrise - Int.tdiv night 7) (safeFajr astro p st night c d))
        (p.timeAdjustments .fajr) := by
  have hr : rawFajr p st night c = st.sunrise - Int.tdiv night 7 := by
    unfold rawFajr
    rw [if_pos ⟨hm, hlat⟩]
  refine ⟨hr, fun a _ => ?_, ?_⟩
  · unfold rawIshaaAngle
    rw [if_pos ⟨hm, hlat⟩]
  · rw [calculateFajr_eq, preFajr_eq_max, hr]

/-- Witness for the amended C3 at a northern latitude-60 coordinate. -/
theorem c3_high_latitude_override_witness :
    55 ≤ northCoords.latitude ∧
    rawFajr paramsMoonPlain (toySolar 0) 43200 northCoords =
      (toySolar 0).sunrise - Int.tdiv 43200 7 ∧
    rawIshaaAngle paramsMoonPlain (toySolar 0) 43200 northCoords 18 =
      (toySolar 0).sunset + Int.tdiv 43200 7 ∧
    calculateFajr toyAstro paramsMoonPlain (toySolar 0) 43200 northCoords 0 =
      adjustTime
        (max ((toySolar 0).sunrise - Int.tdiv 43200 7)
          (safeFajr toyAstro paramsMoonPlain (toySolar 0) 43200 northCoords 0))
        (paramsMoonPlain.timeAdjustments .fajr) :=
  ⟨by decide,
   (c3_high_latitude_override toyAstro paramsMoonPlain (toySolar 0) 43200 northCoords 0 rfl
      (by decide)).1,
   (c3_high_latitude_override toyAstro paramsMoonPlain (toySolar 0) 43200 northCoords 0 rfl
      (by decide)).2.1 18 rfl,
   (c3_high_latitude_override toyAstro paramsMoonPlain (toySolar 0) 43200 northCoords 0 rfl
      (by decide)).2.2⟩

/-- C5: in every schedule, with night duration D the stored tomorrow-Fajr
minus the stored final Maghrib, the middle-of-night instant is Maghrib plus
D/2 and the Qiyam instant is Maghrib plus D·2/3 (both truncated to whole
seconds), and both are rounded with `Rounding::Nearest` no matter which
rounding policy the parameters configure. -/
theorem c5_qiyam_rounding (astro : Astro) (d : ℤ) (c : Coordinates) (p : Parameters) :
    (PrayerTimes.new astro d c p).middleOfTheNight =
      roundedMinute .nearest
        ((PrayerTimes.new astro d c p).maghrib +
          truncQ ((((PrayerTimes.new astro d c p).fajrTomorrow -
            (PrayerTimes.new astro d c p).maghrib : ℤ) : ℚ) / 2)) ∧
    (PrayerTimes.new astro d c p).qiyam =
      roundedMinute .nearest
        ((PrayerTimes.new astro d c p).maghrib +
          truncQ ((((PrayerTimes.new astro d c p).fajrTomorrow -
            (PrayerTimes.new astro d c p).maghrib : ℤ) : ℚ) * (2 / 3))) :=
  ⟨rfl, rfl⟩

/-- C6: for each of the six prayers Fajr, Sunrise, Dhuhr, Asr, Maghrib,
Ishaa, the minute delta `time_adjustments` applies is exactly the sum of the
user-level and method-level adjustments, and in the assembled schedule that
summed delta is applied to the computed instant before the rounding
policy. -/
theorem c6_adjustment_linearity (astro : Astro) (d : ℤ) (c : Coordinates) (p : Parameters) :
    (p.timeAdjustments .fajr = p.adjustments.fajr + p.methodAdjustments.fajr ∧
     p.timeAdjustments .sunrise = p.adjustments.sunrise + p.methodAdjustments.sunrise ∧
     p.timeAdjustments .dhuhr = p.adjustments.dhuhr + p.methodAdjustments.dhuhr ∧
     p.timeAdjustments .asr = p.adjustments.asr + p.methodAdjustments.asr ∧
     p.timeAdjustments .maghrib = p.adjustments.maghrib + p.methodAdjustments.maghrib ∧
     p.timeAdjustments .ishaa = p.adjustments.ishaa + p.methodAdjustments.ishaa) ∧
    (PrayerTimes.new astro d c p).fajr =
      roundedMinute p.rounding
        (adjustTime
          (preFajr astro p (astro.solarTimeOf d c)
            ((astro.solarTimeOf (d + 1) c).sunrise - (astro.solarTimeOf d c).sunset) c d)
          (p.adjustments.fajr + p.methodAdjustments.fajr)) ∧
    (PrayerTimes.new astro d c p).sunrise =
      roundedMinute p.rounding
        (adjustTime (astro.solarTimeOf d c).sunrise
          (p.adjustments.sunrise + p.methodAdjustments.sunrise)) ∧
    (PrayerTimes.new astro d c p).dhuhr =
      roundedMinute p.rounding
        (adjustTime (astro.solarTimeOf d c).transit
          (p.adjustments.dhuhr + p.methodAdjustments.dhuhr)) ∧
    (PrayerTimes.new astro d c p).asr =
      roundedMinute p.rounding
        (adjustTime ((astro.solarTimeOf d c).afternoon p.madhab.shadow)
          (p.adjustments.asr + p.methodAdjustments.asr)) ∧
    (PrayerTimes.new astro d c p).maghrib =
      roundedMinute p.rounding
        (adjustTime (astro.solarTimeOf d c).sunset
          (p.adjustments.maghrib + p.methodAdjustments.maghrib)) ∧
    (PrayerTimes.new astro d c p).ishaa =
      roundedMinute p.rounding
        (adjustTime
          (preIshaa astro p (astro.solarTimeOf d c)
            ((astro.solarTimeOf (d + 1) c).sunrise - (astro.solarTimeOf d c).sunset) c d)
          (p.adjustments.ishaa + p.methodAdjustments.ishaa)) :=
  ⟨⟨rfl, rfl, rfl, rfl, rfl, rfl⟩, rfl, rfl, rfl, rfl, rfl, rfl⟩

/-- C7: the builder's `calculate` returns the descriptive error exactly when
at least one of date, coordinates, parameters is missing, and the complete
schedule when all three are present. -/
theorem c7_builder_requires_all (astro : Astro) (s : PrayerSchedule) :
    (s.calculate astro =
        .error "Required information is needed in order to calculate the prayer times." ↔
      s.date = Option.none ∨ s.coordinates = Option.none ∨ s.params = Option.none) ∧
    ∀ d c p, s.date = some d → s.coordinates = some c → s.params = some p →
      s.calculate astro = .ok (PrayerTimes.new astro d c p) := by
  obtain ⟨sd, sc, sp⟩ := s
  rcases sd with _ | d <;> rcases sc with _ | c <;> rcases sp with _ | p <;>
    simp [PrayerSchedule.calculate]

/-- Witness for C7: a fully supplied builder produces the schedule. -/
theorem c7_builder_requires_all_witness :
    (PrayerSchedule.mk (some 0) (some northCoords) (some paramsMoonPlain)).calculate
        toyAstro =
      .ok (PrayerTimes.new toyAstro 0 northCoords paramsMoonPlain) :=
  (c7_builder_requires_all toyAstro
      (PrayerSchedule.mk (some 0) (some northCoords) (some paramsMoonPlain))).2
    0 northCoords paramsMoonPlain rfl rfl rfl

/-- C8: `night_portions` returns (1/2, 1/2) under the middle-of-night rule,
(1/7, 1/7) under the seventh-of-night rule, and (fajr-angle/60,
dusk-angle/60) under the twilight-angle rule, where the dusk angle is 0 when
dusk is interval-based, so the evening fraction degenerates to 0. -/
theorem c8_night_portions_cases (p : Parameters) :
    (p.highLatitudeRule = .middleOfTheNight → p.nightPortions = (1 / 2, 1 / 2)) ∧
    (p.highLatitudeRule = .seventhOfTheNight → p.nightPortions = (1 / 7, 1 / 7)) ∧
    (p.highLatitudeRule = .twilightAngle →
      p.nightPortions = (p.fajrAngle / 60, p.ishaaParameter.angleValue / 60) ∧
      ∀ i, p.ishaaParameter = .interval i → p.nightPortions.2 = 0) := by
  refine ⟨fun h => by simp [Parameters.nightPortions, h],
          fun h => by simp [Parameters.nightPortions, h],
          fun h => ⟨by simp [Parameters.nightPortions, h],
                    fun i hi => by
                      simp [Parameters.nightPortions, h, hi, IshaaParameter.angleValue]⟩⟩

/-- Witness for C8 at the three high-latitude rules, including the
interval-based degenerate evening fraction. -/
theorem c8_night_portions_cases_witness :
    paramsMoonPlain.nightPortions = (1 / 2, 1 / 2) ∧
    paramsSeventh.nightPortions = (1 / 7, 1 / 7) ∧
    paramsTwilightInterval.nightPortions =
      (paramsTwilightInterval.fajrAngle / 60,
        paramsTwilightInterval.ishaaParameter.angleValue / 60) ∧
    paramsTwilightInterval.nightPortions.2 = 0 :=
  ⟨(c8_night_portions_cases paramsMoonPlain).1 rfl,
   (c8_night_portions_cases paramsSeventh).2.1 rfl,
   ((c8_night_portions_cases paramsTwilightInterval).2.2 rfl).1,
   ((c8_night_portions_cases paramsTwilightInterval).2.2 rfl).2 90 rfl⟩

end Azan

namespace Azan

theorem new_qiyam_eq (astro : Astro) (d : ℤ) (c : Coordinates) (p : Parameters) :
    (PrayerTimes.new astro d c p).qiyam =
      roundedMinute .nearest
        ((PrayerTimes.new astro d c p).maghrib +
          truncQ ((((PrayerTimes.new astro d c p).fajrTomorrow -
            (PrayerTimes.new astro d c p).maghrib : ℤ) : ℚ) * (2 / 3))) := rfl

theorem new_fajr_tomorrow_eq (astro : Astro) (d : ℤ) (c : Coordinates) (p : Parameters) :
    (PrayerTimes.new astro d c p).fajrTomorrow =
      calculateFajr astro p (astro.solarTimeOf (d + 1) c)
        ((astro.solarTimeOf (d + 1 + 1) c).sunrise - (astro.solarTimeOf (d + 1) c).sunset) c
        (d + 1) := rfl

theorem truncQ_two_thirds_bounds (D : ℤ) (hD : 0 ≤ D) :
    3 * truncQ ((D : ℚ) * (2 / 3)) ≤ 2 * D ∧
    2 * D - 3 < 3 * truncQ ((D : ℚ) * (2 / 3)) := by
  have hD0 : (0 : ℚ) ≤ (D : ℚ) := by exact_mod_cast hD
  have hq0 : (0 : ℚ) ≤ (D : ℚ) * (2 / 3) := mul_nonneg hD0 (by norm_num)
  have hle := truncQ_le _ hq0
  have hlt := lt_truncQ _ hq0
  constructor
  · have h : ((3 * truncQ ((D : ℚ) * (2 / 3)) : ℤ) : ℚ) ≤ ((2 * D : ℤ) : ℚ) := by
      push_cast
      linarith
    exact_mod_cast h
  · have h : ((2 * D - 3 : ℤ) : ℚ) < ((3 * truncQ ((D : ℚ) * (2 / 3)) : ℤ) : ℚ) := by
      push_cast
      linarith
    exact_mod_cast h

theorem qiyam_bounds_aux (M F2 I Q R : ℤ)
    (hQub : 3 * Q ≤ 2 * (F2 - M)) (hQlb : 2 * (F2 - M) - 3 < 3 * Q)
    (hR1 : M + Q - 29 ≤ R) (hR2 : R ≤ M + Q + 30)
    (h6 : 3 * I + 93 ≤ M + 2 * F2) (h7 : M + 90 < F2) :
    I < R ∧ R < F2 := by omega

end Azan

namespace Azan

/-- C9: the stored FajrTomorrow is the adjusted tomorrow-Fajr value with no
rounding applied, while under a Nearest or Ceil policy Fajr, Sunrise, Dhuhr,
Asr, Maghrib, Ishaa and Qiyam are all minute-aligned; FajrTomorrow can carry
non-zero seconds. -/
theorem c9_fajr_tomorrow_unrounded (astro : Astro) (d : ℤ) (c : Coordinates) (p : Parameters)
    (h : p.rounding = .nearest ∨ p.rounding = .ceil) :
    (PrayerTimes.new astro d c p).fajrTomorrow =
      calculateFajr astro p (astro.solarTimeOf (d + 1) c)
        ((astro.solarTimeOf (d + 1 + 1) c).sunrise - (astro.solarTimeOf (d + 1) c).sunset) c
        (d + 1) ∧
    ((PrayerTimes.new astro d c p).fajr % 60 = 0 ∧
     (PrayerTimes.new astro d c p).sunrise % 60 = 0 ∧
     (PrayerTimes.new astro d c p).dhuhr % 60 = 0 ∧
     (PrayerTimes.new astro d c p).asr % 60 = 0 ∧
     (PrayerTimes.new astro d c p).maghrib % 60 = 0 ∧
     (PrayerTimes.new astro d c p).ishaa % 60 = 0 ∧
     (PrayerTimes.new astro d c p).qiyam % 60 = 0) ∧
    ∃ astro2 d2 c2 p2, p2.rounding = Rounding.nearest ∧
      (PrayerTimes.new astro2 d2 c2 p2).fajrTomorrow % 60 ≠ 0 := by
  have key : ∀ t, roundedMinute p.rounding t % 60 = 0 := by
    intro t
    rcases h with h | h <;> rw [h]
    · exact roundedMinute_nearest_mod t
    · exact roundedMinute_ceil_mod t
  refine ⟨rfl, ⟨?_, ?_, ?_, ?_, ?_, ?_, ?_⟩,
    ⟨toyAstro, 0, northCoords, paramsMoonNearest, rfl, by decide⟩⟩
  · rw [new_fajr]; exact key _
  · rw [new_sunrise]; exact key _
  · rw [new_dhuhr]; exact key _
  · rw [new_asr]; exact key _
  · rw [new_maghrib]; exact key _
  · rw [new_ishaa]; exact key _
  · rw [new_qiyam_eq]; exact roundedMinute_nearest_mod _

/-- Witness for C9 at concrete toy inputs under the Nearest policy. -/
theorem c9_fajr_tomorrow_unrounded_witness :
    (PrayerTimes.new toyAstro 0 northCoords paramsMoonNearest).fajrTomorrow =
      calculateFajr toyAstro paramsMoonNearest (toyAstro.solarTimeOf (0 + 1) northCoords)
        ((toyAstro.solarTimeOf (0 + 1 + 1) northCoords).sunrise -
          (toyAstro.solarTimeOf (0 + 1) northCoords).sunset) northCoords (0 + 1) ∧
    ((PrayerTimes.new toyAstro 0 northCoords paramsMoonNearest).fajr % 60 = 0 ∧
     (PrayerTimes.new toyAstro 0 northCoords paramsMoonNearest).sunrise % 60 = 0 ∧
     (PrayerTimes.new toyAstro 0 northCoords paramsMoonNearest).dhuhr % 60 = 0 ∧
     (PrayerTimes.new toyAstro 0 northCoords paramsMoonNearest).asr % 60 = 0 ∧
     (PrayerTimes.new toyAstro 0 northCoords paramsMoonNearest).maghrib % 60 = 0 ∧
     (PrayerTimes.new toyAstro 0 northCoords paramsMoonNearest).ishaa % 60 = 0 ∧
     (PrayerTimes.new toyAstro 0 northCoords paramsMoonNearest).qiyam % 60 = 0) ∧
    ∃ astro2 d2 c2 p2, p2.rounding = Rounding.nearest ∧
      (PrayerTimes.new astro2 d2 c2 p2).fajrTomorrow % 60 ≠ 0 :=
  c9_fajr_tomorrow_unrounded toyAstro 0 northCoords paramsMoonNearest (Or.inl rfl)

/-- C10: when the pure lookup yields no prayer, the public accessor panics
with "Out of bounds" (modelled as the error outcome) and `next`, which calls
it, propagates the panic; when the lookup yields a prayer the accessor
returns it. -/
theorem c10_current_panic_model (pt : PrayerTimes) (t : ℤ) :
    (pt.currentTime t = Option.none →
      pt.current t = Except.error "Out of bounds" ∧
      pt.next t = Except.error "Out of bounds") ∧
    ∀ pr, pt.currentTime t = some pr → pt.current t = Except.ok pr := by
  constructor
  · intro h
    have hc : pt.current t = Except.error "Out of bounds" := by
      unfold PrayerTimes.current
      rw [h]
    refine ⟨hc, ?_⟩
    unfold PrayerTimes.next
    rw [hc]
  · intro pr h
    unfold PrayerTimes.current
    rw [h]

/-- Witness for C10: a probe before Fajr makes the lookup yield no prayer,
and both accessors produce the panic outcome there. -/
theorem c10_current_panic_model_witness :
    toyTimes.currentTime 0 = Option.none ∧
    toyTimes.current 0 = Except.error "Out of bounds" ∧
    toyTimes.next 0 = Except.error "Out of bounds" :=
  ⟨by decide,
   ((c10_current_panic_model toyTimes 0).1 (by decide)).1,
   ((c10_current_panic_model toyTimes 0).1 (by decide)).2⟩

/-- C4: `current_time` returns the first prayer in the scan order
[FajrTomorrow, Qiyam, Ishaa, Maghrib, Asr, Dhuhr, Sunrise, Fajr] whose
instant is at most the probe, and — for a schedule satisfying the ordering
invariant — yields no prayer exactly when the probe precedes today's
Fajr. -/
theorem c4_current_scan (pt : PrayerTimes) (t : ℤ) :
    pt.currentTime t = scanOrder.find? (fun pr => decide (pt.time pr ≤ t)) ∧
    (isOrdered pt → (pt.currentTime t = Option.none ↔ t < pt.fajr)) := by
  constructor
  · simp only [PrayerTimes.currentTime, sub_nonpos, scanOrder]
    by_cases h1 : pt.fajrTomorrow ≤ t
    · simp [List.find?, PrayerTimes.time, h1]
    by_cases h2 : pt.qiyam ≤ t
    · simp [List.find?, PrayerTimes.time, h1, h2]
    by_cases h3 : pt.ishaa ≤ t
    · simp [List.find?, PrayerTimes.time, h1, h2, h3]
    by_cases h4 : pt.maghrib ≤ t
    · simp [List.find?, PrayerTimes.time, h1, h2, h3, h4]
    by_cases h5 : pt.asr ≤ t
    · simp [List.find?, PrayerTimes.time, h1, h2, h3, h4, h5]
    by_cases h6 : pt.dhuhr ≤ t
    · simp [List.find?, PrayerTimes.time, h1, h2, h3, h4, h5, h6]
    by_cases h7 : pt.sunrise ≤ t
    · simp [List.find?, PrayerTimes.time, h1, h2, h3, h4, h5, h6, h7]
    by_cases h8 : pt.fajr ≤ t
    · simp [List.find?, PrayerTimes.time, h1, h2, h3, h4, h5, h6, h7, h8]
    · simp [List.find?, PrayerTimes.time, h1, h2, h3, h4, h5, h6, h7, h8]
  · intro ho
    obtain ⟨o1, o2, o3, o4, o5, o6, o7⟩ := ho
    constructor
    · intro hn
      simp only [PrayerTimes.currentTime, sub_nonpos] at hn
      split_ifs at hn
      omega
    · intro hlt
      simp only [PrayerTimes.currentTime, sub_nonpos]
      split_ifs with g1 g2 g3 g4 g5 g6 g7 g8 <;> first | rfl | (exfalso; omega)

/-- Witness for C4 at a concrete ordered schedule and a probe before
Fajr. -/
theorem c4_current_scan_witness :
    toyTimes.currentTime 0 = scanOrder.find? (fun pr => decide (toyTimes.time pr ≤ 0)) ∧
    (toyTimes.currentTime 0 = Option.none ↔ 0 < toyTimes.fajr) :=
  ⟨(c4_current_scan toyTimes 0).1, (c4_current_scan toyTimes 0).2 (by decide)⟩

/-- C1 counterexample: a constructible parameters bundle with a +600-minute
user-level Fajr adjustment makes the assembled schedule's Fajr later than its
Sunrise, so the eight instants are not strictly increasing; the construction
does not enforce the ordering invariant. -/
theorem c1_counterexample :
    ¬ isOrdered (PrayerTimes.new toyAstro 0 northCoords paramsBigFajrAdjustment) :=
  fun h => absurd h.1 (by decide)

/-- C1 amended: the ordering invariant holds for schedules built with zero
user-level and method-level adjustments, the unmodified rounding policy, and
solar data within natural margins — dawn estimate before sunrise, sunrise
before transit before Asr before sunset before the dusk estimate, the dusk
estimate at least 31 seconds before the two-thirds point of the
Maghrib-to-tomorrow-Fajr night, and that night longer than 90 seconds.
Arbitrary adjustments, rounding, or degenerate solar geometry can break the
invariant (see the counterexample). -/
theorem c1_ordering_under_margins (astro : Astro) (d : ℤ) (c : Coordinates) (p : Parameters)
    (st stT : SolarTime) (night night2 F I F2 : ℤ)
    (hst : st = astro.solarTimeOf d c)
    (hstT : stT = astro.solarTimeOf (d + 1) c)
    (hnight : night = stT.sunrise - st.sunset)
    (hnight2 : night2 = (astro.solarTimeOf (d + 1 + 1) c).sunrise - stT.sunset)
    (hF : F = calculateFajr astro p st night c d)
    (hI : I = calculateIsha astro p st night c d)
    (hF2 : F2 = calculateFajr astro p stT night2 c (d + 1))
    (hadj : p.adjustments = TimeAdjustment.zero)
    (hmadj : p.methodAdjustments = TimeAdjustment.zero)
    (hround : p.rounding = Rounding.none)
    (h1 : F < st.sunrise)
    (h2 : st.sunrise < st.transit)
    (h3 : st.transit < st.afternoon p.madhab.shadow)
    (h4 : st.afternoon p.madhab.shadow < st.sunset)
    (h5 : st.sunset < I)
    (h6 : 3 * I + 93 ≤ st.sunset + 2 * F2)
    (h7 : st.sunset + 90 < F2) :
    isOrdered (PrayerTimes.new astro d c p) := by
  subst hst hstT hnight hnight2 hF hI hF2
  have tadj : ∀ pr, p.timeAdjustments pr = 0 := by
    intro pr
    cases pr <;> simp [Parameters.timeAdjustments, hadj, hmadj, TimeAdjustment.zero]
  have hfajr : (PrayerTimes.new astro d c p).fajr =
      calculateFajr astro p (astro.solarTimeOf d c)
        ((astro.solarTimeOf (d + 1) c).sunrise - (astro.solarTimeOf d c).sunset) c d := by
    rw [new_fajr, hround, roundedMinute_none_eq]
  have hsun : (PrayerTimes.new astro d c p).sunrise = (astro.solarTimeOf d c).sunrise := by
    rw [new_sunrise, hround, roundedMinute_none_eq, tadj]
    simp [adjustTime]
  have hdhu : (PrayerTimes.new astro d c p).dhuhr = (astro.solarTimeOf d c).transit := by
    rw [new_dhuhr, hround, roundedMinute_none_eq, tadj]
    simp [adjustTime]
  have hasr : (PrayerTimes.new astro d c p).asr =
      (astro.solarTimeOf d c).afternoon p.madhab.shadow := by
    rw [new_asr, hround, roundedMinute_none_eq, tadj]
    simp [adjustTime]
  have hmag : (PrayerTimes.new astro d c p).maghrib = (astro.solarTimeOf d c).sunset := by
    rw [new_maghrib, hround, roundedMinute_none_eq, tadj]
    simp [adjustTime]
  have hish : (PrayerTimes.new astro d c p).ishaa =
      calculateIsha astro p (astro.solarTimeOf d c)
        ((astro.solarTimeOf (d + 1) c).sunrise - (astro.solarTimeOf d c).sunset) c d := by
    rw [new_ishaa, hround, roundedMinute_none_eq]
  have hft := new_fajr_tomorrow_eq astro d c p
  have hqi := new_qiyam_eq astro d c p
  rw [hft, hmag] at hqi
  have hDnn : 0 ≤ calculateFajr astro p (astro.solarTimeOf (d + 1) c)
      ((astro.solarTimeOf (d + 1 + 1) c).sunrise - (astro.solarTimeOf (d + 1) c).sunset) c
      (d + 1) - (astro.solarTimeOf d c).sunset := by omega
  obtain ⟨hub, hlb⟩ := truncQ_two_thirds_bounds _ hDnn
  obtain ⟨r1, r2⟩ := roundedMinute_nearest_bounds
    ((astro.solarTimeOf d c).sunset +
      truncQ (((calculateFajr astro p (astro.solarTimeOf (d + 1) c)
        ((astro.solarTimeOf (d + 1 + 1) c).sunrise - (astro.solarTimeOf (d + 1) c).sunset) c
        (d + 1) - (astro.solarTimeOf d c).sunset : ℤ) : ℚ) * (2 / 3)))
  rw [← hqi] at r1 r2
  have hIq : calculateIsha astro p (astro.solarTimeOf d c)
        ((astro.solarTimeOf (d + 1) c).sunrise - (astro.solarTimeOf d c).sunset) c d <
      (PrayerTimes.new astro d c p).qiyam ∧
      (PrayerTimes.new astro d c p).qiyam <
        calculateFajr astro p (astro.solarTimeOf (d + 1) c)
          ((astro.solarTimeOf (d + 1 + 1) c).sunrise - (astro.solarTimeOf (d + 1) c).sunset) c
          (d + 1) :=
    qiyam_bounds_aux _ _ _ _ _ hub hlb (by omega) (by omega) h6 h7
  exact ⟨by omega, by omega, by omega, by omega, by omega, by omega, by omega⟩

/-- Witness for the amended C1 at concrete toy inputs, discharging every
margin hypothesis by evaluation. -/
theorem c1_ordering_under_margins_witness :
    isOrdered (PrayerTimes.new toyAstro 0 northCoords paramsMoonPlain) :=
  c1_ordering_under_margins toyAstro 0 northCoords paramsMoonPlain
    (toyAstro.solarTimeOf 0 northCoords) (toyAstro.solarTimeOf (0 + 1) northCoords)
    _ _ _ _ _ rfl rfl rfl rfl rfl rfl rfl rfl rfl rfl
    (by decide) (by decide) (by decide) (by decide) (by decide) (by decide) (by decide)

end Azan
